import Mathlib

/-
Verification of the gRPC AsyncIO transport binding for the Cloud Asset
service (src/google/cloud/asset_v1/services/asset_service/transports/
grpc_asyncio.py).

The transport is plumbing over external libraries: channel creation is
delegated to grpc_helpers_async.create_channel, stub creation to the
channel's unary_unary factory, and long-running-operation handling to
operations_v1.OperationsAsyncClient.  The shallow embedding below renders
those external calls as symbolic constructors that record exactly the
arguments the transport passes to them, and renders the transport's own
instance state (the cached channel, the stub table, the cached operations
client) as an explicit record threaded through each property access.
-/

namespace AssetTransport

/-- A Python credentials argument as the transport sees it: `None`, the
literal `False` (which `__init__` substitutes when a channel is given), or
an actual credentials object, kept symbolic by an identifier. -/
inductive PyCred where
  | noneV : PyCred
  | falseV : PyCred
  | credV (id : Nat) : PyCred
deriving DecidableEq, Repr

/-- SSL channel credentials: either built by `grpc.ssl_channel_credentials`
from the certificate chain and private key bytes a `client_cert_source`
callback returned, or the application-default SSL credentials
`SslCredentials().ssl_credentials`.  Both constructors are external to the
repository and kept symbolic. -/
inductive SslCreds where
  | fromCertSource (cert key : String) : SslCreds
  | adc : SslCreds
deriving DecidableEq, Repr

/-- A keyword-argument value forwarded through `create_channel`'s
`**kwargs`: in this file only `ssl_credentials` is ever passed, but the
embedding allows arbitrary string-valued extras so that delegation can be
stated for every kwargs combination. -/
inductive KwVal where
  | ssl (s : SslCreds) : KwVal
  | str (v : String) : KwVal
deriving DecidableEq, Repr

/-- The exact argument tuple handed to the external channel factory
`grpc_helpers_async.create_channel`. -/
structure CreateChannelArgs where
  host : String
  credentials : PyCred
  credentials_file : Option String
  scopes : List String
  quota_project_id : Option String
  kwargs : List (String × KwVal)
deriving DecidableEq, Repr

/-- A gRPC AsyncIO channel: either an object the caller supplied to the
constructor (symbolic identifier) or one produced by the external factory
`grpc_helpers_async.create_channel`, recorded with the arguments it was
created from. -/
inductive Channel where
  | provided (id : Nat) : Channel
  | created (args : CreateChannelArgs) : Channel
deriving DecidableEq, Repr

/-- External `grpc_helpers_async.create_channel`, modelled as a symbolic
channel constructor recording its arguments; the repository only calls it,
it never inspects the result. -/
def grpc_helpers_async_create_channel (host : String) (credentials : PyCred)
    (credentials_file : Option String) (scopes : List String)
    (quota_project_id : Option String) (kwargs : List (String × KwVal)) :
    Channel :=
  Channel.created ⟨host, credentials, credentials_file, scopes,
    quota_project_id, kwargs⟩

/-- Modelled from the spec: `AUTH_SCOPES` lives on the base class
`AssetServiceTransport` (transports/base.py, which is not under src/); it
is the fixed default OAuth scope list substituted whenever no scopes are
supplied.  Its concrete value never matters to the claims. -/
def AUTH_SCOPES : List String :=
  ["https://www.googleapis.com/auth/cloud-platform"]

/-- Python truthiness of `scopes or AUTH_SCOPES` for an
`Optional[Sequence[str]]`: `None` and the empty sequence are falsy, so both
are replaced by `AUTH_SCOPES`. -/
def scopesOrDefault : Option (List String) → List String
  | none => AUTH_SCOPES
  | some [] => AUTH_SCOPES
  | some (s :: l) => s :: l

/-- The membership test `":" in api_mtls_endpoint`: whether the string
contains a colon character, computed over its character list. -/
def strContainsColon (s : String) : Bool :=
  s.data.any (fun ch => ch == ':')

/-- Python truthiness of an `Optional[str]` argument (`None` and the empty
string are falsy). -/
def strTruthy : Option String → Bool
  | none => false
  | some s => s != ""

/-- `AssetServiceGrpcAsyncIOTransport.create_channel` (classmethod): it
replaces a falsy `scopes` by the class's `AUTH_SCOPES` and otherwise
delegates every argument, kwargs included, to
`grpc_helpers_async.create_channel`. -/
def create_channel (host : String) (credentials : PyCred)
    (credentials_file : Option String) (scopes : Option (List String))
    (quota_project_id : Option String) (kwargs : List (String × KwVal)) :
    Channel :=
  let scopes := scopesOrDefault scopes
  grpc_helpers_async_create_channel host credentials credentials_file scopes
    quota_project_id kwargs

/-- A stub produced by `channel.unary_unary(path, request_serializer,
response_deserializer)`: external to the repository, so modelled as a
record of the channel it is built over, the fully-qualified gRPC method
path, and the (symbolically named) serializer and deserializer. -/
structure Stub where
  channel : Channel
  path : String
  request_serializer : String
  response_deserializer : String
deriving DecidableEq, Repr

/-- External `operations_v1.OperationsAsyncClient`, modelled symbolically
as a record of the channel it was constructed over. -/
structure OperationsAsyncClient where
  channel : Channel
deriving DecidableEq, Repr

/-- The exact argument tuple `__init__` passes to the base constructor
`super().__init__(host=..., credentials=..., credentials_file=...,
scopes=..., quota_project_id=...)`. -/
structure BaseArgs where
  host : String
  credentials : PyCred
  credentials_file : Option String
  scopes : List String
  quota_project_id : Option String
deriving DecidableEq, Repr

/-- The instance state of `AssetServiceGrpcAsyncIOTransport`:
`grpc_channel_attr` is the `_grpc_channel` attribute (`none` means the
attribute was never set, matching the `hasattr` check in the
`grpc_channel` property); `baseArgs` records what was passed to the base
constructor; `_host` and `_credentials` are the attributes the base
constructor stores (see `init`); `_stubs` is the per-instance stub
dictionary, modelled as an association list whose insert prepends; and
`operations_client_cache` is the `__dict__["operations_client"]` slot. -/
structure Transport where
  grpc_channel_attr : Option Channel
  baseArgs : BaseArgs
  _host : String
  _credentials : PyCred
  _stubs : List (String × Stub)
  operations_client_cache : Option OperationsAsyncClient
deriving DecidableEq, Repr

/-- The keyword arguments of `AssetServiceGrpcAsyncIOTransport.__init__`.
`client_cert_source` is a callback returning a certificate/key byte pair;
in this pure embedding it is modelled by the pair it returns. -/
structure InitArgs where
  host : String
  credentials : PyCred
  credentials_file : Option String
  scopes : Option (List String)
  channel : Option Channel
  api_mtls_endpoint : Option String
  client_cert_source : Option (String × String)
  quota_project_id : Option String
deriving DecidableEq, Repr

/-- `AssetServiceGrpcAsyncIOTransport.__init__`.  The three branches of the
source: an explicit channel wins and forces `credentials = False`; else a
truthy `api_mtls_endpoint` overrides the host (appending `:443` when the
endpoint has no `:`) and eagerly creates a mutual-TLS channel; else no
channel is created.  The base constructor `super().__init__` is in
transports/base.py, which is not under src/; it is Modelled from the spec:
per the spec's credential attachment and single cached channel, it stores
the host and credentials it receives as `_host` and `_credentials`.
Finally `self._stubs = {}`. -/
def init (a : InitArgs) : Transport :=
  match a.channel with
  | some ch =>
      let credentials := PyCred.falseV
      let base : BaseArgs :=
        ⟨a.host, credentials, a.credentials_file, scopesOrDefault a.scopes,
          a.quota_project_id⟩
      { grpc_channel_attr := some ch
        baseArgs := base
        _host := base.host
        _credentials := base.credentials
        _stubs := []
        operations_client_cache := none }
  | none =>
      if strTruthy a.api_mtls_endpoint then
        let ep := a.api_mtls_endpoint.getD ""
        let host := if strContainsColon ep then ep else ep ++ ":443"
        let ssl_credentials :=
          match a.client_cert_source with
          | some (cert, key) => SslCreds.fromCertSource cert key
          | none => SslCreds.adc
        let ch := create_channel host a.credentials a.credentials_file
          (some (scopesOrDefault a.scopes)) a.quota_project_id
          [("ssl_credentials", KwVal.ssl ssl_credentials)]
        let base : BaseArgs :=
          ⟨host, a.credentials, a.credentials_file, scopesOrDefault a.scopes,
            a.quota_project_id⟩
        { grpc_channel_attr := some ch
          baseArgs := base
          _host := base.host
          _credentials := base.credentials
          _stubs := []
          operations_client_cache := none }
      else
        let base : BaseArgs :=
          ⟨a.host, a.credentials, a.credentials_file,
            scopesOrDefault a.scopes, a.quota_project_id⟩
        { grpc_channel_attr := none
          baseArgs := base
          _host := base.host
          _credentials := base.credentials
          _stubs := []
          operations_client_cache := none }

/-- The `grpc_channel` property: if `_grpc_channel` is not yet set, create
one via `self.create_channel(self._host, credentials=self._credentials)`
(every other argument left at its default) and cache it; return the cached
channel. -/
def grpc_channel (t : Transport) : Channel × Transport :=
  match t.grpc_channel_attr with
  | some ch => (ch, t)
  | none =>
      let ch := create_channel t._host t._credentials none none none []
      (ch, { t with grpc_channel_attr := some ch })

/-- The stub-property pattern every RPC method property repeats: if `name`
is not in `self._stubs`, build `self.grpc_channel.unary_unary(path,
request_serializer, response_deserializer)` and store it under `name`;
return `self._stubs[name]`. -/
def stubProperty (name path ser deser : String) (t : Transport) :
    Stub × Transport :=
  match t._stubs.lookup name with
  | some s => (s, t)
  | none =>
      let (ch, t1) := grpc_channel t
      let s : Stub := ⟨ch, path, ser, deser⟩
      (s, { t1 with _stubs := (name, s) :: t1._stubs })

/-- The `export_assets` property. -/
def export_assets (t : Transport) : Stub × Transport :=
  stubProperty "export_assets"
    "/google.cloud.asset.v1.AssetService/ExportAssets"
    "ExportAssetsRequest.serialize" "operations.Operation.FromString" t

/-- The `batch_get_assets_history` property. -/
def batch_get_assets_history (t : Transport) : Stub × Transport :=
  stubProperty "batch_get_assets_history"
    "/google.cloud.asset.v1.AssetService/BatchGetAssetsHistory"
    "BatchGetAssetsHistoryRequest.serialize"
    "BatchGetAssetsHistoryResponse.deserialize" t

/-- The `create_feed` property. -/
def create_feed (t : Transport) : Stub × Transport :=
  stubProperty "create_feed" "/google.cloud.asset.v1.AssetService/CreateFeed"
    "CreateFeedRequest.serialize" "Feed.deserialize" t

/-- The `get_feed` property. -/
def get_feed (t : Transport) : Stub × Transport :=
  stubProperty "get_feed" "/google.cloud.asset.v1.AssetService/GetFeed"
    "GetFeedRequest.serialize" "Feed.deserialize" t

/-- The `list_feeds` property. -/
def list_feeds (t : Transport) : Stub × Transport :=
  stubProperty "list_feeds" "/google.cloud.asset.v1.AssetService/ListFeeds"
    "ListFeedsRequest.serialize" "ListFeedsResponse.deserialize" t

/-- The `update_feed` property. -/
def update_feed (t : Transport) : Stub × Transport :=
  stubProperty "update_feed" "/google.cloud.asset.v1.AssetService/UpdateFeed"
    "UpdateFeedRequest.serialize" "Feed.deserialize" t

/-- The `delete_feed` property. -/
def delete_feed (t : Transport) : Stub × Transport :=
  stubProperty "delete_feed" "/google.cloud.asset.v1.AssetService/DeleteFeed"
    "DeleteFeedRequest.serialize" "empty.Empty.FromString" t

/-- The `search_all_resources` property. -/
def search_all_resources (t : Transport) : Stub × Transport :=
  stubProperty "search_all_resources"
    "/google.cloud.asset.v1.AssetService/SearchAllResources"
    "SearchAllResourcesRequest.serialize"
    "SearchAllResourcesResponse.deserialize" t

/-- The `search_all_iam_policies` property. -/
def search_all_iam_policies (t : Transport) : Stub × Transport :=
  stubProperty "search_all_iam_policies"
    "/google.cloud.asset.v1.AssetService/SearchAllIamPolicies"
    "SearchAllIamPoliciesRequest.serialize"
    "SearchAllIamPoliciesResponse.deserialize" t

/-- The `operations_client` property: on first access build
`operations_v1.OperationsAsyncClient(self.grpc_channel)` and cache it in
`self.__dict__`; later accesses return the cached client. -/
def operations_client (t : Transport) : OperationsAsyncClient × Transport :=
  match t.operations_client_cache with
  | some c => (c, t)
  | none =>
      let (ch, t1) := grpc_channel t
      let c : OperationsAsyncClient := ⟨ch⟩
      (c, { t1 with operations_client_cache := some c })

/-- The RPC method properties the transport class defines, by property
name, in source order.  `grpc_channel` and `operations_client` are not RPC
method properties and `create_channel` is a classmethod, so the class body
exposes exactly these nine stub properties. -/
def rpcMethodProperties : List (String × (Transport → Stub × Transport)) :=
  [("export_assets", export_assets),
   ("batch_get_assets_history", batch_get_assets_history),
   ("create_feed", create_feed),
   ("get_feed", get_feed),
   ("list_feeds", list_feeds),
   ("update_feed", update_feed),
   ("delete_feed", delete_feed),
   ("search_all_resources", search_all_resources),
   ("search_all_iam_policies", search_all_iam_policies)]

/-! ### Fallible-externals embedding

The source contains no `try`/`except`: every exception an external library
raises during `__init__`, channel creation or stub creation escapes to the
caller.  To state that, the embedding below repeats the same translation
with each external call drawn from a record of fallible functions
(`Except ε`); the pure model above is the special case where every
external succeeds. -/

/-- The external functions the transport calls, each allowed to raise an
exception of type `ε`. -/
structure ExternalsE (ε : Type) where
  create_channel : String → PyCred → Option String → List String →
    Option String → List (String × KwVal) → Except ε Channel
  ssl_channel_credentials : String → String → Except ε SslCreds
  adc_ssl_credentials : Unit → Except ε SslCreds
  base_init : BaseArgs → Except ε Unit
  unary_unary : Channel → String → String → String → Except ε Stub
  operations_async_client : Channel → Except ε OperationsAsyncClient

/-- `__init__`'s arguments in the fallible embedding: here
`client_cert_source` really is a callback, which may itself raise. -/
structure InitArgsE (ε : Type) where
  host : String
  credentials : PyCred
  credentials_file : Option String
  scopes : Option (List String)
  channel : Option Channel
  api_mtls_endpoint : Option String
  client_cert_source : Option (Unit → Except ε (String × String))
  quota_project_id : Option String

/-- `create_channel` over fallible externals: the scope substitution, then
straight delegation. -/
def create_channelE {ε : Type} (ext : ExternalsE ε) (host : String)
    (credentials : PyCred) (credentials_file : Option String)
    (scopes : Option (List String)) (quota_project_id : Option String)
    (kwargs : List (String × KwVal)) : Except ε Channel :=
  let scopes := scopesOrDefault scopes
  ext.create_channel host credentials credentials_file scopes
    quota_project_id kwargs

/-- `__init__` over fallible externals, same branch structure as `init`;
no failure is caught anywhere. -/
def initE {ε : Type} (ext : ExternalsE ε) (a : InitArgsE ε) :
    Except ε Transport :=
  match a.channel with
  | some ch => do
      let credentials := PyCred.falseV
      let base : BaseArgs :=
        ⟨a.host, credentials, a.credentials_file, scopesOrDefault a.scopes,
          a.quota_project_id⟩
      let _ ← ext.base_init base
      pure { grpc_channel_attr := some ch
             baseArgs := base
             _host := base.host
             _credentials := base.credentials
             _stubs := []
             operations_client_cache := none }
  | none =>
      if strTruthy a.api_mtls_endpoint then do
        let ep := a.api_mtls_endpoint.getD ""
        let host := if strContainsColon ep then ep else ep ++ ":443"
        let ssl_credentials ←
          match a.client_cert_source with
          | some certSource => do
              let (cert, key) ← certSource ()
              ext.ssl_channel_credentials cert key
          | none => ext.adc_ssl_credentials ()
        let ch ← create_channelE ext host a.credentials a.credentials_file
          (some (scopesOrDefault a.scopes)) a.quota_project_id
          [("ssl_credentials", KwVal.ssl ssl_credentials)]
        let base : BaseArgs :=
          ⟨host, a.credentials, a.credentials_file, scopesOrDefault a.scopes,
            a.quota_project_id⟩
        let _ ← ext.base_init base
        pure { grpc_channel_attr := some ch
               baseArgs := base
               _host := base.host
               _credentials := base.credentials
               _stubs := []
               operations_client_cache := none }
      else do
        let base : BaseArgs :=
          ⟨a.host, a.credentials, a.credentials_file,
            scopesOrDefault a.scopes, a.quota_project_id⟩
        let _ ← ext.base_init base
        pure { grpc_channel_attr := none
               baseArgs := base
               _host := base.host
               _credentials := base.credentials
               _stubs := []
               operations_client_cache := none }

/-- The `grpc_channel` property over fallible externals. -/
def grpc_channelE {ε : Type} (ext : ExternalsE ε) (t : Transport) :
    Except ε (Channel × Transport) :=
  match t.grpc_channel_attr with
  | some ch => pure (ch, t)
  | none => do
      let ch ← create_channelE ext t._host t._credentials none none none []
      pure (ch, { t with grpc_channel_attr := some ch })

/-- The stub-property pattern over fallible externals. -/
def stubPropertyE {ε : Type} (ext : ExternalsE ε)
    (name path ser deser : String) (t : Transport) :
    Except ε (Stub × Transport) :=
  match t._stubs.lookup name with
  | some s => pure (s, t)
  | none => do
      let (ch, t1) ← grpc_channelE ext t
      let s ← ext.unary_unary ch path ser deser
      pure (s, { t1 with _stubs := (name, s) :: t1._stubs })

/-- The `operations_client` property over fallible externals. -/
def operations_clientE {ε : Type} (ext : ExternalsE ε) (t : Transport) :
    Except ε (OperationsAsyncClient × Transport) :=
  match t.operations_client_cache with
  | some c => pure (c, t)
  | none => do
      let (ch, t1) ← grpc_channelE ext t
      let c ← ext.operations_async_client ch
      pure (c, { t1 with operations_client_cache := some c })

/-- The never-failing externals: each call succeeds with exactly the value
the symbolic pure model assigns to it. -/
def okExt (ε : Type) : ExternalsE ε where
  create_channel h c cf s q k :=
    Except.ok (grpc_helpers_async_create_channel h c cf s q k)
  ssl_channel_credentials cert key :=
    Except.ok (SslCreds.fromCertSource cert key)
  adc_ssl_credentials _ := Except.ok SslCreds.adc
  base_init _ := Except.ok ()
  unary_unary ch path ser deser := Except.ok ⟨ch, path, ser, deser⟩
  operations_async_client ch := Except.ok ⟨ch⟩

/-- Recast pure constructor arguments into the fallible world: the
certificate callback becomes one that succeeds with its pair. -/
def InitArgs.toE (ε : Type) (a : InitArgs) : InitArgsE ε :=
  { host := a.host
    credentials := a.credentials
    credentials_file := a.credentials_file
    scopes := a.scopes
    channel := a.channel
    api_mtls_endpoint := a.api_mtls_endpoint
    client_cert_source :=
      a.client_cert_source.map (fun p => fun _ => Except.ok p)
    quota_project_id := a.quota_project_id }

/-! ### Helper lemmas -/

/-- Every branch of `__init__` ends with `self._stubs = {}`. -/
theorem init_stubs (a : InitArgs) : (init a)._stubs = [] := by
  rcases a with ⟨h, c, cf, s, ch, mtls, ccs, q⟩
  cases ch
  · by_cases hm : strTruthy mtls = true
    · simp [init, hm]
    · simp [init, hm]
  · rfl

/-- Every branch of `__init__` leaves the operations-client cache empty. -/
theorem init_ops_cache (a : InitArgs) :
    (init a).operations_client_cache = none := by
  rcases a with ⟨h, c, cf, s, ch, mtls, ccs, q⟩
  cases ch
  · by_cases hm : strTruthy mtls = true
    · simp [init, hm]
    · simp [init, hm]
  · rfl

/-- When `_grpc_channel` is already set, the `grpc_channel` property
returns it unchanged. -/
theorem grpc_channel_cached {t : Transport} {ch : Channel}
    (h : t.grpc_channel_attr = some ch) : grpc_channel t = (ch, t) := by
  simp [grpc_channel, h]

/-- After any access, the `_grpc_channel` attribute holds exactly the
returned channel. -/
theorem grpc_channel_attr_after (t : Transport) :
    ((grpc_channel t).2).grpc_channel_attr = some (grpc_channel t).1 := by
  cases h : t.grpc_channel_attr <;> simp [grpc_channel, h]

/-- A second `grpc_channel` access returns the same channel and leaves the
state unchanged. -/
theorem grpc_channel_idem (t : Transport) :
    grpc_channel ((grpc_channel t).2) =
      ((grpc_channel t).1, (grpc_channel t).2) :=
  grpc_channel_cached (grpc_channel_attr_after t)

/-- A stub access never touches the `grpc_channel` attribute beyond the
property access itself. -/
theorem grpc_channel_stubs_unchanged (t : Transport) :
    ((grpc_channel t).2)._stubs = t._stubs := by
  cases h : t.grpc_channel_attr <;> simp [grpc_channel, h]

/-- When the stub dictionary already holds `name`, the property returns
the stored stub and changes nothing. -/
theorem stubProperty_cached {t : Transport} {name : String} {s : Stub}
    (path ser deser : String) (h : t._stubs.lookup name = some s) :
    stubProperty name path ser deser t = (s, t) := by
  simp [stubProperty, h]

/-- When the stub dictionary does not hold `name`, the property builds the
stub over the (then cached) channel and stores it under `name`. -/
theorem stubProperty_not_cached {t : Transport} {name : String}
    (path ser deser : String) (h : t._stubs.lookup name = none) :
    stubProperty name path ser deser t =
      (⟨(grpc_channel t).1, path, ser, deser⟩,
       { (grpc_channel t).2 with
           _stubs := (name, ⟨(grpc_channel t).1, path, ser, deser⟩)
             :: ((grpc_channel t).2)._stubs }) := by
  simp [stubProperty, h]

/-- After any access, the stub dictionary holds exactly the returned stub
under the accessed name. -/
theorem stubProperty_lookup_after (name path ser deser : String)
    (t : Transport) :
    (((stubProperty name path ser deser t).2)._stubs).lookup name =
      some (stubProperty name path ser deser t).1 := by
  cases h : t._stubs.lookup name
  · rw [stubProperty_not_cached path ser deser h]
    simp [List.lookup]
  · rw [stubProperty_cached path ser deser h]
    exact h

/-- A second access to the same stub property returns the stored stub and
leaves the state unchanged. -/
theorem stubProperty_idem (name path ser deser : String) (t : Transport) :
    stubProperty name path ser deser
        ((stubProperty name path ser deser t).2) =
      ((stubProperty name path ser deser t).1,
       (stubProperty name path ser deser t).2) :=
  stubProperty_cached path ser deser
    (stubProperty_lookup_after name path ser deser t)

/-- On a transport whose stub dictionary lacks `name`, the property
returns the stub built by `unary_unary` over the cached channel with
exactly the given path, serializer and deserializer. -/
theorem stub_fresh_spec (name path ser deser : String) (t : Transport)
    (h : t._stubs.lookup name = none) :
    (stubProperty name path ser deser t).1 =
      ⟨(grpc_channel t).1, path, ser, deser⟩ ∧
    ((stubProperty name path ser deser t).2).grpc_channel_attr =
      some ((stubProperty name path ser deser t).1).channel := by
  rw [stubProperty_not_cached path ser deser h]
  exact ⟨rfl, grpc_channel_attr_after t⟩

/-- A freshly constructed transport, used to instantiate theorems with
hypotheses at a concrete input. -/
def sampleArgs : InitArgs :=
  ⟨"cloudasset.googleapis.com", PyCred.noneV, none, none,
    some (Channel.provided 7), none, none, none⟩

/-- Concrete constructor arguments with no channel and no mTLS endpoint
but with a credentials file, scopes and a quota project id set. -/
def lazyArgs : InitArgs :=
  ⟨"cloudasset.googleapis.com", PyCred.credV 3, some "creds.json",
    some ["scope-a"], none, none, none, some "proj"⟩

/-- Concrete constructor arguments with an mTLS endpoint (no port) and a
certificate source. -/
def mtlsArgs : InitArgs :=
  ⟨"cloudasset.googleapis.com", PyCred.credV 5, none, none, none,
    some "mtls.example.com", some ("certpem", "keypem"), none⟩

/-! ### Claim theorems -/

/-- C3: the `grpc_channel` property creates a channel at most once: an
instance that already holds a channel (set by the constructor or a
previous access) gets that same channel back with no state change, and two
consecutive accesses on the same instance yield the same channel. -/
theorem C3_grpc_channel_idempotent :
    (∀ (t : Transport) (ch : Channel),
       t.grpc_channel_attr = some ch → grpc_channel t = (ch, t)) ∧
    (∀ t : Transport,
       grpc_channel ((grpc_channel t).2) =
         ((grpc_channel t).1, (grpc_channel t).2)) :=
  ⟨fun _ _ h => grpc_channel_cached h, grpc_channel_idem⟩

/-- C3 witness: a transport constructed around an explicit channel returns
exactly that channel from `grpc_channel`. -/
theorem C3_grpc_channel_idempotent_witness :
    (init ⟨"cloudasset.googleapis.com", PyCred.noneV, none, none,
        some (Channel.provided 0), none, none, none⟩).grpc_channel_attr =
      some (Channel.provided 0) ∧
    grpc_channel (init ⟨"cloudasset.googleapis.com", PyCred.noneV, none,
        none, some (Channel.provided 0), none, none, none⟩) =
      (Channel.provided 0,
       init ⟨"cloudasset.googleapis.com", PyCred.noneV, none, none,
         some (Channel.provided 0), none, none, none⟩) :=
  ⟨rfl, C3_grpc_channel_idempotent.1 _ (Channel.provided 0) rfl⟩

/-- C4: the transport exposes exactly the nine RPC method properties —
export_assets, batch_get_assets_history, the feed CRUD plus list, and the
two searches — with distinct names and no others. -/
theorem C4_exactly_nine_rpc_methods :
    rpcMethodProperties.map Prod.fst =
      ["export_assets", "batch_get_assets_history", "create_feed",
       "get_feed", "list_feeds", "update_feed", "delete_feed",
       "search_all_resources", "search_all_iam_policies"] ∧
    (rpcMethodProperties.map Prod.fst).Nodup ∧
    rpcMethodProperties.length = 9 :=
  ⟨rfl, by decide, rfl⟩

/-- C5: `create_channel` delegates entirely to
`grpc_helpers_async.create_channel` for every argument combination, kwargs
included; its single local transformation substitutes the class's
`AUTH_SCOPES` exactly when `scopes` is `None` or empty. -/
theorem C5_create_channel_delegates (host : String) (credentials : PyCred)
    (credentials_file : Option String) (scopes : Option (List String))
    (quota_project_id : Option String) (kwargs : List (String × KwVal)) :
    create_channel host credentials credentials_file scopes quota_project_id
        kwargs =
      grpc_helpers_async_create_channel host credentials credentials_file
        (scopesOrDefault scopes) quota_project_id kwargs ∧
    (scopes = none ∨ scopes = some [] →
       scopesOrDefault scopes = AUTH_SCOPES) ∧
    (∀ l : List String, l ≠ [] → scopes = some l →
       scopesOrDefault scopes = l) := by
  refine ⟨rfl, ?_, ?_⟩
  · rintro (rfl | rfl) <;> rfl
  · rintro l hl rfl
    cases l
    · exact absurd rfl hl
    · rfl

/-- C5 witness: the delegation and both sides of the scope substitution,
checked at concrete arguments. -/
theorem C5_create_channel_delegates_witness :
    create_channel "cloudasset.googleapis.com" (PyCred.credV 1)
        (some "creds.json") none (some "proj")
        [("extra", KwVal.str "x")] =
      grpc_helpers_async_create_channel "cloudasset.googleapis.com"
        (PyCred.credV 1) (some "creds.json") AUTH_SCOPES (some "proj")
        [("extra", KwVal.str "x")] ∧
    scopesOrDefault (some []) = AUTH_SCOPES ∧
    scopesOrDefault (some ["s1"]) = ["s1"] :=
  ⟨(C5_create_channel_delegates "cloudasset.googleapis.com"
      (PyCred.credV 1) (some "creds.json") none (some "proj")
      [("extra", KwVal.str "x")]).1,
   (C5_create_channel_delegates "h" PyCred.noneV none (some []) none
      []).2.1 (Or.inr rfl),
   (C5_create_channel_delegates "h" PyCred.noneV none (some ["s1"]) none
      []).2.2 ["s1"] (by simp) rfl⟩

/-- C1: on a fresh transport, each of the nine RPC method properties
returns the stub built over the cached channel for exactly that method's
fully-qualified gRPC path, with that method's request serializer and
response deserializer; the channel inside the returned stub is the one the
instance then caches. -/
theorem C1_stub_wiring (a : InitArgs) :
    ((export_assets (init a)).1 =
        ⟨(grpc_channel (init a)).1,
          "/google.cloud.asset.v1.AssetService/ExportAssets",
          "ExportAssetsRequest.serialize",
          "operations.Operation.FromString"⟩ ∧
      ((export_assets (init a)).2).grpc_channel_attr =
        some ((export_assets (init a)).1).channel) ∧
    ((batch_get_assets_history (init a)).1 =
        ⟨(grpc_channel (init a)).1,
          "/google.cloud.asset.v1.AssetService/BatchGetAssetsHistory",
          "BatchGetAssetsHistoryRequest.serialize",
          "BatchGetAssetsHistoryResponse.deserialize"⟩ ∧
      ((batch_get_assets_history (init a)).2).grpc_channel_attr =
        some ((batch_get_assets_history (init a)).1).channel) ∧
    ((create_feed (init a)).1 =
        ⟨(grpc_channel (init a)).1,
          "/google.cloud.asset.v1.AssetService/CreateFeed",
          "CreateFeedRequest.serialize", "Feed.deserialize"⟩ ∧
      ((create_feed (init a)).2).grpc_channel_attr =
        some ((create_feed (init a)).1).channel) ∧
    ((get_feed (init a)).1 =
        ⟨(grpc_channel (init a)).1,
          "/google.cloud.asset.v1.AssetService/GetFeed",
          "GetFeedRequest.serialize", "Feed.deserialize"⟩ ∧
      ((get_feed (init a)).2).grpc_channel_attr =
        some ((get_feed (init a)).1).channel) ∧
    ((list_feeds (init a)).1 =
        ⟨(grpc_channel (init a)).1,
          "/google.cloud.asset.v1.AssetService/ListFeeds",
          "ListFeedsRequest.serialize", "ListFeedsResponse.deserialize"⟩ ∧
      ((list_feeds (init a)).2).grpc_channel_attr =
        some ((list_feeds (init a)).1).channel) ∧
    ((update_feed (init a)).1 =
        ⟨(grpc_channel (init a)).1,
          "/google.cloud.asset.v1.AssetService/UpdateFeed",
          "UpdateFeedRequest.serialize", "Feed.deserialize"⟩ ∧
      ((update_feed (init a)).2).grpc_channel_attr =
        some ((update_feed (init a)).1).channel) ∧
    ((delete_feed (init a)).1 =
        ⟨(grpc_channel (init a)).1,
          "/google.cloud.asset.v1.AssetService/DeleteFeed",
          "DeleteFeedRequest.serialize", "empty.Empty.FromString"⟩ ∧
      ((delete_feed (init a)).2).grpc_channel_attr =
        some ((delete_feed (init a)).1).channel) ∧
    ((search_all_resources (init a)).1 =
        ⟨(grpc_channel (init a)).1,
          "/google.cloud.asset.v1.AssetService/SearchAllResources",
          "SearchAllResourcesRequest.serialize",
          "SearchAllResourcesResponse.deserialize"⟩ ∧
      ((search_all_resources (init a)).2).grpc_channel_attr =
        some ((search_all_resources (init a)).1).channel) ∧
    ((search_all_iam_policies (init a)).1 =
        ⟨(grpc_channel (init a)).1,
          "/google.cloud.asset.v1.AssetService/SearchAllIamPolicies",
          "SearchAllIamPoliciesRequest.serialize",
          "SearchAllIamPoliciesResponse.deserialize"⟩ ∧
      ((search_all_iam_policies (init a)).2).grpc_channel_attr =
        some ((search_all_iam_policies (init a)).1).channel) := by
  have h : ∀ n : String, ((init a)._stubs).lookup n = none := by
    intro n
    rw [init_stubs]
    rfl
  exact ⟨stub_fresh_spec _ _ _ _ _ (h _), stub_fresh_spec _ _ _ _ _ (h _),
    stub_fresh_spec _ _ _ _ _ (h _), stub_fresh_spec _ _ _ _ _ (h _),
    stub_fresh_spec _ _ _ _ _ (h _), stub_fresh_spec _ _ _ _ _ (h _),
    stub_fresh_spec _ _ _ _ _ (h _), stub_fresh_spec _ _ _ _ _ (h _),
    stub_fresh_spec _ _ _ _ _ (h _)⟩

/-- C2: for every RPC method property and every transport state, the stub
returned by an access is the one stored under that method's name, a second
access returns exactly the stored stub with no state change, and when a
stub is already cached under the name the access returns it and creates
nothing. -/
theorem C2_one_stub_per_name :
    ∀ p ∈ rpcMethodProperties, ∀ t : Transport,
      (((p.2 t).2)._stubs).lookup p.1 = some (p.2 t).1 ∧
      p.2 ((p.2 t).2) = ((p.2 t).1, (p.2 t).2) ∧
      (∀ s : Stub, (t._stubs).lookup p.1 = some s → p.2 t = (s, t)) := by
  intro p hp t
  simp only [rpcMethodProperties, List.mem_cons, List.not_mem_nil,
    or_false] at hp
  rcases hp with rfl | rfl | rfl | rfl | rfl | rfl | rfl | rfl | rfl <;>
    exact ⟨stubProperty_lookup_after _ _ _ _ t,
      stubProperty_idem _ _ _ _ t,
      fun _ hs => stubProperty_cached _ _ _ hs⟩

/-- C2 witness: on a concrete transport, after a first `export_assets`
access the stub is stored under "export_assets", and a further access on
the resulting instance returns exactly the stored stub with no change. -/
theorem C2_one_stub_per_name_witness :
    ("export_assets", export_assets) ∈ rpcMethodProperties ∧
    (((export_assets (init sampleArgs)).2)._stubs).lookup "export_assets" =
      some (export_assets (init sampleArgs)).1 ∧
    export_assets ((export_assets (init sampleArgs)).2) =
      ((export_assets (init sampleArgs)).1,
       (export_assets (init sampleArgs)).2) :=
  ⟨List.Mem.head _,
   (C2_one_stub_per_name ("export_assets", export_assets) (List.Mem.head _)
     (init sampleArgs)).1,
   C2_one_stub_per_name ("export_assets", export_assets) (List.Mem.head _)
     ((export_assets (init sampleArgs)).2) |>.2.2
     (export_assets (init sampleArgs)).1 (by rfl)⟩

/-- When the operations client is already cached, the property returns it
and changes nothing. -/
theorem operations_client_cached {t : Transport}
    {c : OperationsAsyncClient} (h : t.operations_client_cache = some c) :
    operations_client t = (c, t) := by
  simp [operations_client, h]

/-- After any access, the cache slot holds exactly the returned operations
client. -/
theorem operations_client_cache_after (t : Transport) :
    ((operations_client t).2).operations_client_cache =
      some (operations_client t).1 := by
  cases h : t.operations_client_cache <;> simp [operations_client, h]

/-- C7: on first access the `operations_client` property builds
`operations_v1.OperationsAsyncClient` over the cached channel and stores
it; every later access on the same instance returns exactly the stored
client with no state change. -/
theorem C7_operations_client_cached (t : Transport) :
    (t.operations_client_cache = none →
       operations_client t =
         (⟨(grpc_channel t).1⟩,
          { (grpc_channel t).2 with
              operations_client_cache := some ⟨(grpc_channel t).1⟩ })) ∧
    ((operations_client t).2).operations_client_cache =
      some (operations_client t).1 ∧
    operations_client ((operations_client t).2) =
      ((operations_client t).1, (operations_client t).2) ∧
    (∀ c : OperationsAsyncClient, t.operations_client_cache = some c →
       operations_client t = (c, t)) :=
  ⟨fun h => by simp [operations_client, h],
   operations_client_cache_after t,
   operations_client_cached (operations_client_cache_after t),
   fun _ h => operations_client_cached h⟩

/-- C7 witness: on a concrete fresh transport, the first access stores the
client built over the cached channel, and an access on the resulting
instance returns exactly the stored client. -/
theorem C7_operations_client_cached_witness :
    (init sampleArgs).operations_client_cache = none ∧
    operations_client (init sampleArgs) =
      (⟨(grpc_channel (init sampleArgs)).1⟩,
       { (grpc_channel (init sampleArgs)).2 with
           operations_client_cache :=
             some ⟨(grpc_channel (init sampleArgs)).1⟩ }) ∧
    operations_client ((operations_client (init sampleArgs)).2) =
      ((operations_client (init sampleArgs)).1,
       (operations_client (init sampleArgs)).2) :=
  ⟨rfl, (C7_operations_client_cached (init sampleArgs)).1 rfl,
   (C7_operations_client_cached
       ((operations_client (init sampleArgs)).2)).2.2.2
     (operations_client (init sampleArgs)).1 (by rfl)⟩

/-- C8: when a channel is passed to the constructor it is installed as the
instance's channel, the credentials are replaced by the literal `False`
before reaching the base constructor (so the stored credentials are
`False` too), and the `api_mtls_endpoint` and `client_cert_source`
arguments have no effect on the result. -/
theorem C8_explicit_channel (a : InitArgs) (ch : Channel)
    (h : a.channel = some ch) :
    (init a).grpc_channel_attr = some ch ∧
    (init a).baseArgs =
      ⟨a.host, PyCred.falseV, a.credentials_file, scopesOrDefault a.scopes,
        a.quota_project_id⟩ ∧
    (init a)._credentials = PyCred.falseV ∧
    (∀ (mtls : Option String) (ccs : Option (String × String)),
       init { a with api_mtls_endpoint := mtls,
                     client_cert_source := ccs } = init a) := by
  rcases a with ⟨ah, ac, acf, asc, ach, am, accs, aq⟩
  cases h
  exact ⟨rfl, rfl, rfl, fun _ _ => rfl⟩

/-- C8 witness: a concrete transport built around an explicit channel. -/
theorem C8_explicit_channel_witness :
    sampleArgs.channel = some (Channel.provided 7) ∧
    (init sampleArgs).grpc_channel_attr = some (Channel.provided 7) ∧
    (init sampleArgs)._credentials = PyCred.falseV ∧
    init { sampleArgs with api_mtls_endpoint := some "mtls.example.com",
                           client_cert_source := some ("cert", "key") } =
      init sampleArgs :=
  ⟨rfl, (C8_explicit_channel sampleArgs (Channel.provided 7) rfl).1,
   (C8_explicit_channel sampleArgs (Channel.provided 7) rfl).2.2.1,
   (C8_explicit_channel sampleArgs (Channel.provided 7) rfl).2.2.2
     (some "mtls.example.com") (some ("cert", "key"))⟩

/-- C9: with no channel and no (truthy) mTLS endpoint the constructor
creates no channel; the first `grpc_channel` access then calls
`create_channel` with only the stored host and credentials, so the
constructor's `credentials_file`, `scopes` and `quota_project_id` never
reach the lazily created channel (the external factory receives `None`,
the substituted `AUTH_SCOPES` default, and `None` for them).  The base
constructor that stores `_host` and `_credentials` is modelled from the
spec (transports/base.py is not under src/). -/
theorem C9_lazy_channel (a : InitArgs) (h1 : a.channel = none)
    (h2 : strTruthy a.api_mtls_endpoint = false) :
    (init a).grpc_channel_attr = none ∧
    (grpc_channel (init a)).1 =
      create_channel a.host a.credentials none none none [] ∧
    (grpc_channel (init a)).1 =
      grpc_helpers_async_create_channel a.host a.credentials none
        AUTH_SCOPES none [] := by
  rcases a with ⟨ah, ac, acf, asc, ach, am, accs, aq⟩
  cases h1
  refine ⟨?_, ?_, ?_⟩ <;>
    simp [init, h2, grpc_channel, create_channel,
      grpc_helpers_async_create_channel, scopesOrDefault]

/-- C9 witness: a transport constructed with a credentials file, explicit
scopes and a quota project id still creates its lazy channel from the
host, the credentials and library defaults only. -/
theorem C9_lazy_channel_witness :
    lazyArgs.channel = none ∧
    strTruthy lazyArgs.api_mtls_endpoint = false ∧
    (init lazyArgs).grpc_channel_attr = none ∧
    (grpc_channel (init lazyArgs)).1 =
      grpc_helpers_async_create_channel "cloudasset.googleapis.com"
        (PyCred.credV 3) none AUTH_SCOPES none [] :=
  ⟨rfl, rfl, (C9_lazy_channel lazyArgs rfl rfl).1,
   (C9_lazy_channel lazyArgs rfl rfl).2.2⟩

/-- C10: with no channel and a truthy mTLS endpoint, the channel host is
the endpoint itself when it contains a `:` and the endpoint with `:443`
appended otherwise; that host overrides the constructor's `host` argument
(it is what reaches the base constructor and the stored `_host`), and the
SSL credentials come from the `client_cert_source` callback when supplied
and from application-default SSL credentials otherwise. -/
theorem C10_mtls_endpoint (a : InitArgs) (ep : String)
    (h1 : a.channel = none) (h2 : a.api_mtls_endpoint = some ep)
    (h3 : ep ≠ "") :
    (init a).grpc_channel_attr =
      some (create_channel
        (if strContainsColon ep then ep else ep ++ ":443")
        a.credentials a.credentials_file (some (scopesOrDefault a.scopes))
        a.quota_project_id
        [("ssl_credentials", KwVal.ssl
           (match a.client_cert_source with
            | some (cert, key) => SslCreds.fromCertSource cert key
            | none => SslCreds.adc))]) ∧
    (init a).baseArgs.host =
      (if strContainsColon ep then ep else ep ++ ":443") ∧
    (init a)._host = (if strContainsColon ep then ep else ep ++ ":443") := by
  rcases a with ⟨ah, ac, acf, asc, ach, am, accs, aq⟩
  cases h1
  cases h2
  have ht : strTruthy (some ep) = true := by simp [strTruthy, h3]
  rcases accs with _ | ⟨cert, key⟩ <;>
    exact ⟨by simp [init, ht], by simp [init, ht], by simp [init, ht]⟩

/-- C10 witness: an endpoint without a `:` gets `:443` appended, that host
overrides the constructor host, and the supplied certificate source
provides the SSL credentials. -/
theorem C10_mtls_endpoint_witness :
    mtlsArgs.channel = none ∧
    mtlsArgs.api_mtls_endpoint = some "mtls.example.com" ∧
    (init mtlsArgs).baseArgs.host = "mtls.example.com:443" ∧
    (init mtlsArgs).grpc_channel_attr =
      some (create_channel "mtls.example.com:443" (PyCred.credV 5) none
        (some AUTH_SCOPES) none
        [("ssl_credentials",
          KwVal.ssl (SslCreds.fromCertSource "certpem" "keypem"))]) :=
  ⟨rfl, rfl,
   by
     rw [(C10_mtls_endpoint mtlsArgs "mtls.example.com" rfl rfl
       (by decide)).2.1]
     decide,
   by
     rw [(C10_mtls_endpoint mtlsArgs "mtls.example.com" rfl rfl
       (by decide)).1]
     decide⟩

/-- C6: the transport catches no exception: whichever external call fails
first — the base constructor, the certificate callback, the
application-default SSL credentials, the channel factory, the stub
factory, or the operations-client constructor — the operation returns
exactly that error; and when every external succeeds, construction
succeeds and yields exactly the pure-model transport. -/
theorem C6_errors_propagate {ε : Type} (ext : ExternalsE ε) (e : ε) :
    (∀ (a : InitArgsE ε) (ch : Channel), a.channel = some ch →
       (∀ b, ext.base_init b = Except.error e) →
       initE ext a = Except.error e) ∧
    (∀ a : InitArgsE ε, a.channel = none →
       strTruthy a.api_mtls_endpoint = false →
       (∀ b, ext.base_init b = Except.error e) →
       initE ext a = Except.error e) ∧
    (∀ (a : InitArgsE ε) (f : Unit → Except ε (String × String)),
       a.channel = none → strTruthy a.api_mtls_endpoint = true →
       a.client_cert_source = some f → f () = Except.error e →
       initE ext a = Except.error e) ∧
    (∀ a : InitArgsE ε, a.channel = none →
       strTruthy a.api_mtls_endpoint = true →
       a.client_cert_source = none →
       (∀ u, ext.adc_ssl_credentials u = Except.error e) →
       initE ext a = Except.error e) ∧
    (∀ (a : InitArgsE ε) (ssl : SslCreds), a.channel = none →
       strTruthy a.api_mtls_endpoint = true →
       a.client_cert_source = none →
       (∀ u, ext.adc_ssl_credentials u = Except.ok ssl) →
       (∀ h c cf s q k, ext.create_channel h c cf s q k = Except.error e) →
       initE ext a = Except.error e) ∧
    (∀ t : Transport, t.grpc_channel_attr = none →
       (∀ h c cf s q k, ext.create_channel h c cf s q k = Except.error e) →
       grpc_channelE ext t = Except.error e) ∧
    (∀ (t : Transport) (name path ser deser : String) (ch : Channel),
       (t._stubs).lookup name = none → t.grpc_channel_attr = some ch →
       (∀ c p1 s1 d1, ext.unary_unary c p1 s1 d1 = Except.error e) →
       stubPropertyE ext name path ser deser t = Except.error e) ∧
    (∀ (t : Transport) (ch : Channel), t.operations_client_cache = none →
       t.grpc_channel_attr = some ch →
       (∀ c, ext.operations_async_client c = Except.error e) →
       operations_clientE ext t = Except.error e) ∧
    (∀ a : InitArgs,
       initE (okExt ε) (InitArgs.toE ε a) = Except.ok (init a)) := by
  refine ⟨?_, ?_, ?_, ?_, ?_, ?_, ?_, ?_, ?_⟩
  · rintro ⟨ah, ac, acf, asc, ach, am, accs, aq⟩ ch h hb
    cases h
    simp [initE, hb]
  · rintro ⟨ah, ac, acf, asc, ach, am, accs, aq⟩ h hm hb
    cases h
    simp [initE, hm, hb]
  · rintro ⟨ah, ac, acf, asc, ach, am, accs, aq⟩ f h hm hc hf
    cases h
    cases hc
    simp [initE, hm, hf, Bind.bind, Except.bind]
  · rintro ⟨ah, ac, acf, asc, ach, am, accs, aq⟩ h hm hc hadc
    cases h
    cases hc
    simp [initE, hm, hadc, Bind.bind, Except.bind]
  · rintro ⟨ah, ac, acf, asc, ach, am, accs, aq⟩ ssl h hm hc hadc hcc
    cases h
    cases hc
    simp [initE, hm, hadc, create_channelE, hcc, Bind.bind, Except.bind]
  · rintro ⟨attr, base, th, tc, ts, toc⟩ h hcc
    cases h
    simp [grpc_channelE, create_channelE, hcc, Bind.bind, Except.bind]
  · rintro ⟨attr, base, th, tc, ts, toc⟩ name path ser deser ch hs hattr huu
    cases hattr
    simp [stubPropertyE, hs, grpc_channelE, huu, Bind.bind, Except.bind,
      pure, Except.pure]
  · rintro ⟨attr, base, th, tc, ts, toc⟩ ch hoc hattr hop
    cases hattr
    cases hoc
    simp [operations_clientE, grpc_channelE, hop, Bind.bind, Except.bind,
      pure, Except.pure]
  · rintro ⟨ah, ac, acf, asc, ach, am, accs, aq⟩
    cases ach
    · by_cases hm : strTruthy am = true
      · rcases accs with _ | ⟨cert, key⟩ <;>
          simp [initE, init, InitArgs.toE, okExt, hm, create_channelE,
            create_channel, grpc_helpers_async_create_channel, Bind.bind,
            Except.bind, pure, Except.pure]
      · simp [initE, init, InitArgs.toE, okExt, Bool.of_not_eq_true hm,
          Bind.bind, Except.bind, pure, Except.pure]
    · simp [initE, init, InitArgs.toE, okExt, Bind.bind, Except.bind,
        pure, Except.pure]

/-- C6 witness: with a base constructor that raises, construction returns
exactly that error; with all externals succeeding, construction succeeds
with the pure-model result. -/
theorem C6_errors_propagate_witness :
    initE { okExt String with base_init := fun _ => Except.error "boom" }
        (InitArgs.toE String sampleArgs) = Except.error "boom" ∧
    initE (okExt String) (InitArgs.toE String sampleArgs) =
      Except.ok (init sampleArgs) :=
  ⟨(C6_errors_propagate
      { okExt String with base_init := fun _ => Except.error "boom" }
      "boom").1 (InitArgs.toE String sampleArgs) (Channel.provided 7) rfl
      (fun _ => rfl),
   (C6_errors_propagate (okExt String) "boom").2.2.2.2.2.2.2.2 sampleArgs⟩

end AssetTransport
